import Mathlib

/-!
# Verification of the SwiftWallet STK-push reconciliation core

Shallow embedding of the Node/Express payment service
(`src/unnamed/part_000`, middle deployment at lines 156-662, and
`src/server.js`): the transaction ledger and balance records kept in the
document store, the `/pay`, `/callback`, `/update-status/:reference`,
`/events/:phone` handlers, `snapshotFor`, `broadcast` and the SSE client
registry.  JavaScript runtime values that the handlers inspect are
modelled by `JVal`; JS numbers are modelled as rationals (the service
only ever computes with decimal literals parsed by `parseFloat` /
`Number`; binary floating-point rounding and exponent-notation numerals
are not modelled).  Arithmetic on rationals is expressed through
`mkRat` and integer cross-multiplication so that every definition
evaluates by kernel reduction.
-/

/-- A JavaScript runtime value as far as the handlers inspect payload and
stored fields: `jundef` doubles for an absent field. `NaN` is not a
`JVal`; functions that can produce `NaN` (`Number`, `parseFloat`) return
`Option ℚ` with `none` for a non-finite result. -/
inductive JVal where
  | jundef
  | jnull
  | jbool (b : Bool)
  | jnum (q : ℚ)
  | jstr (s : String)
  deriving DecidableEq

namespace JsModel

/-- JS addition of two numbers, via `mkRat` (kernel-reducible). -/
def qadd (a b : ℚ) : ℚ := mkRat (a.num * (b.den : ℤ) + b.num * (a.den : ℤ)) (a.den * b.den)

/-- JS `a <= b` on numbers (denominators are positive, so cross-multiplying is sound). -/
def qle (a b : ℚ) : Bool := decide (a.num * (b.den : ℤ) ≤ b.num * (a.den : ℤ))

/-- JS `a < b` on numbers. -/
def qlt (a b : ℚ) : Bool := decide (a.num * (b.den : ℤ) < b.num * (a.den : ℤ))

/-- `Math.round`: round half toward positive infinity, i.e. `⌊q + 1/2⌋`. -/
def mathRound (q : ℚ) : ℚ := mkRat (Int.fdiv (2 * q.num + (q.den : ℤ)) (2 * (q.den : ℤ))) 1

/-- JS truthiness of a value (no `NaN` case: see `JVal`). -/
def truthy : JVal → Bool
  | .jundef => false
  | .jnull => false
  | .jbool b => b
  | .jnum q => decide (q ≠ 0)
  | .jstr s => decide (s ≠ "")

/-- JS `a || b`: first operand if truthy, else second. -/
def jsOr (a b : JVal) : JVal := if truthy a then a else b

/-- JS `v || 0` (used on a stored balance before adding to it). -/
def jsOrZero (v : JVal) : JVal := if truthy v then v else .jnum 0

/-- ASCII lower-casing of one character (`String.prototype.toLowerCase`
on the ASCII tokens this service compares against). -/
def lowCh (c : Char) : Char :=
  if 'A' ≤ c ∧ c ≤ 'Z' then Char.ofNat (c.toNat + 32) else c

/-- ASCII upper-casing of one character. -/
def upCh (c : Char) : Char :=
  if 'a' ≤ c ∧ c ≤ 'z' then Char.ofNat (c.toNat - 32) else c

/-- `s.toLowerCase()` for a string. -/
def lowerStr (s : String) : String := String.mk (s.toList.map lowCh)

/-- `s.toUpperCase()` for a string. -/
def upperStr (s : String) : String := String.mk (s.toList.map upCh)

/-- Is `p` a prefix of `l`? -/
def isPref : List Char → List Char → Bool
  | [], _ => true
  | _ :: _, [] => false
  | a :: as, b :: bs => a = b && isPref as bs

/-- Does `hay` contain `needle` as a contiguous substring
(`String.prototype.includes`)? -/
def isSub (needle : List Char) : List Char → Bool
  | [] => needle.isEmpty
  | c :: rest => isPref needle (c :: rest) || isSub needle rest

/-- `s.includes(sub)`. -/
def strIncludes (s sub : String) : Bool := isSub sub.toList s.toList

/-- One decimal digit to a character. -/
def digitChar (d : Nat) : Char := Char.ofNat (48 + d)

/-- Decimal digits of a natural number (fuel-driven; `n+1` fuel always suffices). -/
def natToCharsAux : Nat → Nat → List Char
  | 0, _ => []
  | fuel + 1, n => if n < 10 then [digitChar n] else natToCharsAux fuel (n / 10) ++ [digitChar (n % 10)]

/-- Decimal string of a natural number. -/
def natToChars (n : Nat) : List Char := natToCharsAux (n + 1) n

/-- `String(x)` for a number.  JS renders non-integral numbers with a
decimal point; this model renders them as `num/den`, which is harmless:
the service only ever compares the result (lower-cased) against the
word "completed", which no digit/`-`/`/` string can equal. -/
def jsNumToString (q : ℚ) : String :=
  String.mk ((if q.num < 0 then ['-'] else []) ++ natToChars q.num.natAbs
    ++ (if q.den = 1 then [] else '/' :: natToChars q.den))

/-- `String(v)` for any value. -/
def jsToString : JVal → String
  | .jundef => "undefined"
  | .jnull => "null"
  | .jbool b => if b then "true" else "false"
  | .jnum q => jsNumToString q
  | .jstr s => s

/-- Numeric value of a list of decimal digit characters. -/
def digitsToNat (ds : List Char) : Nat := ds.foldl (fun n c => n * 10 + (c.toNat - 48)) 0

/-- Is a character JS whitespace (the forms relevant here)? -/
def isWs (c : Char) : Bool := c = ' ' || c = '\t' || c = '\n' || c = '\r'

/-- Parse a decimal numeral prefix `[+-]? digits* ('.' digits*)?` from a
character list.  Returns the value and the unconsumed rest, or `none`
when no digit was consumed.  Exponent (`1e3`) and hexadecimal numerals
are not modelled. -/
def parseNumCore (cs : List Char) : Option (ℚ × List Char) :=
  let (sign, cs1) : ℤ × List Char :=
    match cs with
    | '-' :: rest => (-1, rest)
    | '+' :: rest => (1, rest)
    | _ => (1, cs)
  let ip := cs1.takeWhile Char.isDigit
  let cs2 := cs1.dropWhile Char.isDigit
  let (fp, rest) : List Char × List Char :=
    match cs2 with
    | '.' :: r => (r.takeWhile Char.isDigit, r.dropWhile Char.isDigit)
    | _ => ([], cs2)
  if ip.isEmpty && fp.isEmpty then none
  else some (mkRat (sign * ((digitsToNat ip * 10 ^ fp.length + digitsToNat fp : Nat) : ℤ)) (10 ^ fp.length), rest)

/-- `parseFloat` on a string: skip leading whitespace, parse the longest
numeric prefix; `none` is `NaN`. -/
def parseFloatStr (s : String) : Option ℚ :=
  (parseNumCore (s.toList.dropWhile isWs)).map (·.1)

/-- `parseFloat(v)`: `ToString` then prefix-parse.  `"undefined"`,
`"null"`, `"true"`, `"false"` all parse to `NaN`. -/
def parseFloatJ : JVal → Option ℚ
  | .jnum q => some q
  | .jstr s => parseFloatStr s
  | _ => none

/-- `Number` on a string: trimmed empty string is `0`; otherwise the whole
(trimmed) string must be a decimal numeral.  `none` covers `NaN` and the
non-finite values (`"Infinity"` and friends), which the service treats
identically (`!Number.isFinite`). -/
def jsNumberStr (s : String) : Option ℚ :=
  let cs := (s.toList.dropWhile isWs).reverse.dropWhile isWs |>.reverse
  if cs.isEmpty then some 0
  else match parseNumCore cs with
    | some (q, []) => some q
    | _ => none

/-- `Number(v)` (`none` = not a finite number). -/
def jsNumber : JVal → Option ℚ
  | .jundef => none
  | .jnull => some 0
  | .jbool b => some (if b then 1 else 0)
  | .jnum q => some q
  | .jstr s => jsNumberStr s

/-- JS `a + v` where `a` is a number: numeric addition unless `v` is a
string, in which case it is string concatenation.  (`jundef` would give
`NaN`; it is unreachable here because every call site first applies
`jsOrZero`, which replaces falsy values by the number `0`.) -/
def jsAddNum (a : ℚ) : JVal → JVal
  | .jnum q => .jnum (qadd a q)
  | .jbool b => .jnum (qadd a (if b then 1 else 0))
  | .jnull => .jnum a
  | .jundef => .jnum a
  | .jstr s => .jstr (jsNumToString a ++ s)

/-- JS `v < n` for a numeric literal `n`: `ToNumber` the operand, compare;
comparisons with `NaN` are false. -/
def jsLtNum (v : JVal) (n : ℚ) : Bool :=
  match jsNumber v with
  | some q => qlt q n
  | none => false

end JsModel

open JsModel

/-- `formatPhone` (src/unnamed/part_000 lines 193-200): strip non-digit
characters, then accept `7xxxxxxxx`, `07xxxxxxxx` or `254xxxxxxxxx`,
normalising to the 254 form; anything else is `null` (`none`). -/
def formatPhone (s : String) : Option String :=
  let digits := String.mk (s.toList.filter Char.isDigit)
  if digits.length = 9 && isPref "7".toList digits.toList then some ("254" ++ digits)
  else if digits.length = 10 && isPref "07".toList digits.toList then
    some ("254" ++ String.mk (digits.toList.drop 1))
  else if digits.length = 12 && isPref "254".toList digits.toList then some digits
  else none

/-- `formatPhone` applied to a raw JS value, as the handlers do.  A falsy
argument is replaced by `''`; a truthy non-string has no `.replace`
method, so the call throws (`Except.error`), which the surrounding
`try/catch` turns into a 500 response. -/
def formatPhoneJ : JVal → Except Unit (Option String)
  | .jstr s => .ok (formatPhone s)
  | .jbool b => if b then .error () else .ok (formatPhone "")
  | .jnum q => if q = 0 then .ok (formatPhone "") else .error ()
  | .jnull => .ok (formatPhone "")
  | .jundef => .ok (formatPhone "")

/-- Using an extracted reference as a Firestore document id
(`db.collection("transactions").doc(reference)`): a non-string throws.
Only reached when the value is truthy. -/
def refKey : JVal → Except Unit String
  | .jstr s => .ok s
  | _ => .error ()

/-- `v.toLowerCase()` on an extracted field: throws unless the value is a
string.  Only reached when the value is truthy. -/
def toLowerJ : JVal → Except Unit String
  | .jstr s => .ok (lowerStr s)
  | _ => .error ()

/-- `v.toUpperCase()` on an extracted field: throws unless a string. -/
def toUpperJ : JVal → Except Unit String
  | .jstr s => .ok (upperStr s)
  | _ => .error ()

/-!  ## The document store

Two keyed tables, modelled as association lists with first-match lookup.
`kvSet` is a full-document write; Firestore's `{merge: true}` writes are
modelled at each call site by building the merged document from the
previous one explicitly, field by field, exactly as the source lists the
fields. -/

/-- First-match lookup in a keyed table. -/
def kvLookup {α : Type} : List (String × α) → String → Option α
  | [], _ => none
  | (k', v) :: rest, k => if k' = k then some v else kvLookup rest k

/-- Write (replace or append) a keyed document. -/
def kvSet {α : Type} : List (String × α) → String → α → List (String × α)
  | [], k, v => [(k, v)]
  | (k', v') :: rest, k, v => if k' = k then (k, v) :: rest else (k', v') :: kvSet rest k v

/-- Delete a key. -/
def kvErase {α : Type} (s : List (String × α)) (k : String) : List (String × α) :=
  s.filter (fun kv => kv.1 ≠ k)

/-- The fields of a callback payload that the handler inspects, each
`jundef` when absent.  `resultPhone` is `data.result.Phone`,
`resultStatus` is `data.result.status`, `resultAmount` is
`data.result.Amount`, `resultResultDesc` is `data.result.ResultDesc`. -/
structure Payload where
  success : JVal := .jundef
  status : JVal := .jundef
  resultStatus : JVal := .jundef
  ResultCode : JVal := .jundef
  ResultDesc : JVal := .jundef
  resultResultDesc : JVal := .jundef
  phone_number : JVal := .jundef
  resultPhone : JVal := .jundef
  Phone : JVal := .jundef
  MSISDN : JVal := .jundef
  external_reference : JVal := .jundef
  CheckoutRequestID : JVal := .jundef
  reference : JVal := .jundef
  resultAmount : JVal := .jundef
  amount : JVal := .jundef
  Amount : JVal := .jundef
  TransAmount : JVal := .jundef
  deriving DecidableEq

/-- One transaction document (collection `transactions`, keyed by the
external reference).  Every field is optional: a merge write can create
a document carrying only the written fields.  A stored `amount` is
always a number in this system; `none` stands for an absent field (and
for the unreachable stored `NaN`, which every read treats the same way:
falsy, and zeroed by `|| 0` / `parseFloat(...) || 0`).  `callbackData`
records the raw payload attached by `callback: data` writes. -/
structure Txn where
  phone : Option String := none
  amount : Option ℚ := none
  status : Option String := none
  reference : Option String := none
  createdAt : Option Nat := none
  updatedAt : Option Nat := none
  callbackData : Option Payload := none
  swiftwallet : Option Unit := none
  error : Option String := none
  deriving DecidableEq

/-- One user document (collection `users`, keyed by phone).  The stored
`balance` is whatever JS value was last written (the self-heal logic
must cope with absent or non-numeric values). -/
structure UserDoc where
  phone : Option String := none
  balance : Option JVal := none
  updatedAt : Option Nat := none
  deriving DecidableEq

/-- The persistent state: the two Firestore collections. -/
structure DB where
  transactions : List (String × Txn) := []
  users : List (String × UserDoc) := []
  deriving DecidableEq

/-- `data?.result?.Phone || data?.phone_number || data?.Phone || data?.MSISDN`. -/
def phoneChain (p : Payload) : JVal :=
  jsOr p.resultPhone (jsOr p.phone_number (jsOr p.Phone p.MSISDN))

/-- `data?.external_reference || data?.CheckoutRequestID || data?.reference`. -/
def referenceChain (p : Payload) : JVal :=
  jsOr p.external_reference (jsOr p.CheckoutRequestID p.reference)

/-- `data?.result?.Amount || data?.amount || data?.Amount || data?.TransAmount || 0`. -/
def amountChain (p : Payload) : JVal :=
  jsOr p.resultAmount (jsOr p.amount (jsOr p.Amount (jsOr p.TransAmount (.jnum 0))))

/-- `data?.status || data?.result?.status || data?.ResultCode`. -/
def statusChain (p : Payload) : JVal :=
  jsOr p.status (jsOr p.resultStatus p.ResultCode)

/-- `data?.ResultDesc || data?.result?.ResultDesc || ""`. -/
def descChain (p : Payload) : JVal :=
  jsOr p.ResultDesc (jsOr p.resultResultDesc (.jstr ""))

/-!  ## `snapshotFor` (src/unnamed/part_000 lines 203-256) -/

/-- One entry of the transaction list a snapshot carries. -/
structure TxnView where
  id : String
  amount : ℚ
  status : String
  date : Nat
  reference : String
  deriving DecidableEq

/-- Result of `snapshotFor`: the returned balance and transaction list,
plus the (possibly self-healed) store. -/
structure SnapRes where
  balance : ℚ
  transactions : List TxnView
  db : DB
  deriving DecidableEq

/-- The balance read: `userDoc.exists ? Number(userDoc.data().balance || 0) : 0`,
as an `Option ℚ` (`none` = non-finite). -/
def storedBalNum (db : DB) (phone : String) : Option ℚ :=
  match kvLookup db.users phone with
  | none => some 0
  | some u => jsNumber (jsOr (u.balance.getD .jundef) (.jnum 0))

/-- `!userDoc.exists || !Number.isFinite(balance) || balance < 0`. -/
def snapNeedsHeal (db : DB) (phone : String) : Bool :=
  (kvLookup db.users phone).isNone ||
    match storedBalNum db phone with
    | none => true
    | some q => qlt q 0

/-- The self-heal recomputation: sum of `parseFloat(d.data().amount) || 0`
over the transactions of this phone whose status is `"SUCCESS"`.  A
stored amount is a number, so `parseFloat` returns it and `|| 0` only
replaces an absent field (`NaN`) or `0` by `0`. -/
def successSum (db : DB) (phone : String) : ℚ :=
  (db.transactions.filter
      (fun kt => kt.2.phone = some phone && kt.2.status = some "SUCCESS")).foldl
    (fun acc kt => qadd acc (kt.2.amount.getD 0)) 0

/-- Sort key for the transaction-list query: the stored `createdAt`.
Firestore's `orderBy("createdAt", "desc")` only returns documents that
have the field, so the `getD now` default is never the deciding value. -/
def txnKey (now : Nat) (kt : String × Txn) : Nat := kt.2.createdAt.getD now

/-- The descending `createdAt` order used by the query. -/
def txnGE (now : Nat) (a b : String × Txn) : Prop := txnKey now b ≤ txnKey now a

instance (now : Nat) : DecidableRel (txnGE now) := fun _ _ => Nat.decLe _ _

instance (now : Nat) : IsTotal (String × Txn) (txnGE now) :=
  ⟨fun a b => Nat.le_total (txnKey now b) (txnKey now a)⟩

instance (now : Nat) : IsTrans (String × Txn) (txnGE now) :=
  ⟨fun _ _ _ h1 h2 => Nat.le_trans h2 h1⟩

/-- The view built for one returned transaction document: `d.amount || 0`,
`d.status || "PENDING"`, `d.createdAt` (or the current time when absent),
`d.reference || doc.id`. -/
def viewOf (now : Nat) (kt : String × Txn) : TxnView :=
  { id := kt.1
    amount := kt.2.amount.getD 0
    status := match kt.2.status with
      | some s => if s = "" then "PENDING" else s
      | none => "PENDING"
    date := kt.2.createdAt.getD now
    reference := match kt.2.reference with
      | some r => if r = "" then kt.1 else r
      | none => kt.1 }

/-- The query `transactions where phone == .. orderBy createdAt desc limit 5`,
already mapped to views. -/
def lastFive (db : DB) (phone : String) (now : Nat) : List TxnView :=
  ((List.insertionSort (txnGE now)
      (db.transactions.filter
        (fun kt => kt.2.phone = some phone && kt.2.createdAt.isSome))).take 5).map
    (viewOf now)

/-- `snapshotFor(phone)`: read the stored balance; if the user document is
missing, the coerced balance non-finite, or negative, recompute it from
SUCCESS transactions and persist the corrected value (a merge write that
supplies every modelled `users` field); then attach the last five
transactions, newest first. -/
def snapshotFor (db : DB) (phone : String) (now : Nat) : SnapRes :=
  let healed :=
    if snapNeedsHeal db phone then
      let b := successSum db phone
      let u : UserDoc := { phone := some phone, balance := some (.jnum b), updatedAt := some now }
      ({ db with users := kvSet db.users phone u }, b)
    else (db, (storedBalNum db phone).getD 0)
  { balance := healed.2, transactions := lastFive db phone now, db := healed.1 }

/-!  ## The SSE client registry and `broadcast`
(src/unnamed/part_000 lines 263-316) -/

/-- One live SSE connection: `id` models the identity of the `res` object,
`pushOk` whether `res.write` succeeds on it. -/
structure Conn where
  id : Nat
  pushOk : Bool
  deriving DecidableEq

/-- The notification hub state: `sseClients` maps a phone to its set of
connections (in insertion order), `timers` holds the ids of connections
whose heartbeat interval is currently scheduled. -/
structure Hub where
  sseClients : List (String × List Conn) := []
  timers : List Nat := []
  deriving DecidableEq

/-- The connections currently registered for a phone. -/
def connsAt (hub : Hub) (phone : String) : List Conn :=
  (kvLookup hub.sseClients phone).getD []

/-- `addSseClient`: register the connection and start its heartbeat. -/
def addSseClient (hub : Hub) (phone : String) (c : Conn) : Hub :=
  { sseClients := kvSet hub.sseClients phone (connsAt hub phone ++ [c])
    timers := c.id :: hub.timers }

/-- Remove the first connection with this id from a list. -/
def removeFirstConn : List Conn → Nat → List Conn
  | [], _ => []
  | c :: rest, i => if c.id = i then rest else c :: removeFirstConn rest i

/-- `removeSseClient`: clear the found entry's heartbeat interval, delete
the entry, and drop the phone's key when its set becomes empty. -/
def removeSseClient (hub : Hub) (phone : String) (i : Nat) : Hub :=
  match kvLookup hub.sseClients phone with
  | none => hub
  | some set =>
    let set' := removeFirstConn set i
    { sseClients :=
        if set'.isEmpty then kvErase hub.sseClients phone
        else kvSet hub.sseClients phone set'
      timers := if set.any (fun c => c.id = i) then hub.timers.erase i else hub.timers }

/-- The JSON object `broadcast` writes to each connection (and the
initial snapshot event, with `status`/`reference` null). -/
structure SnapPayload where
  phone : String
  balance : ℚ
  transactions : List TxnView
  status : Option String
  reference : Option String
  timestamp : Nat
  deriving DecidableEq

/-- The `for (const {res} of set)` loop of `broadcast`: write the payload
to each connection; a connection whose write throws is dropped via
`removeSseClient`.  Returns the hub after the loop and the list of
deliveries `(connection id, payload)`. -/
def pushAll (phone : String) (payload : SnapPayload) :
    List Conn → Hub → Hub × List (Nat × SnapPayload)
  | [], hub => (hub, [])
  | c :: rest, hub =>
    if c.pushOk then
      let r := pushAll phone payload rest hub
      (r.1, (c.id, payload) :: r.2)
    else pushAll phone payload rest (removeSseClient hub phone c.id)

/-- Result of `broadcast`: the store (snapshot recomputation may
self-heal it), the hub, and the deliveries made. -/
structure BOut where
  db : DB
  hub : Hub
  pushes : List (Nat × SnapPayload)
  deriving DecidableEq

/-- `broadcast(phone, opts)`: return immediately when the phone has no
live connections (nothing is pushed and the store is not read);
otherwise recompute a fresh snapshot and push it to every connection
registered at the time of the call. -/
def broadcast (db : DB) (hub : Hub) (phone : String)
    (st ref : Option String) (now : Nat) : BOut :=
  match kvLookup hub.sseClients phone with
  | none => ⟨db, hub, []⟩
  | some set =>
    if set.isEmpty then ⟨db, hub, []⟩
    else
      let snap := snapshotFor db phone now
      let payload : SnapPayload :=
        ⟨phone, snap.balance, snap.transactions, st, ref, now⟩
      let r := pushAll phone payload set hub
      ⟨snap.db, r.1, r.2⟩

/-- Decidable equality for exception-carrying results. -/
instance {e a : Type} [DecidableEq e] [DecidableEq a] : DecidableEq (Except e a) := fun x y =>
  match x, y with
  | .ok v, .ok w => if h : v = w then isTrue (by rw [h]) else isFalse (fun hc => h (by cases hc; rfl))
  | .error v, .error w => if h : v = w then isTrue (by rw [h]) else isFalse (fun hc => h (by cases hc; rfl))
  | .ok _, .error _ => isFalse (fun hc => Except.noConfusion hc)
  | .error _, .ok _ => isFalse (fun hc => Except.noConfusion hc)

/-!  ## The `/callback` handler (src/unnamed/part_000 lines 475-586) -/

/-- The JSON acknowledgement a callback request receives. -/
structure CallbackResp where
  httpStatus : Nat
  resultCode : Nat
  resultDesc : String
  deriving DecidableEq

/-- Result of one `/callback` request: response, stores, hub, SSE deliveries. -/
structure CbOut where
  resp : CallbackResp
  db : DB
  hub : Hub
  pushes : List (Nat × SnapPayload)
  deriving DecidableEq

/-- The `isSuccess` classification (lines 523-533), with JS short-circuit
order: an explicit `success === true`; the coalesced status chain equal
to `"0"` or `0`; the truthy status chain lower-casing to `"completed"`;
a truthy result description containing `"success"` (this one throws when
the description field is a truthy non-string); finally the top-level
`ResultCode` equal to `"0"` or `0`. -/
def isSuccessE (p : Payload) : Except Unit Bool :=
  let st := statusChain p
  let rd := descChain p
  if p.success = .jbool true then .ok true
  else if st = .jstr "0" then .ok true
  else if st = .jnum 0 then .ok true
  else if truthy st && (lowerStr (jsToString st) = "completed") then .ok true
  else if truthy rd then
    match toLowerJ rd with
    | .error e => .error e
    | .ok s =>
      if strIncludes s "success" then .ok true
      else .ok (p.ResultCode = .jstr "0" || p.ResultCode = .jnum 0)
  else .ok (p.ResultCode = .jstr "0" || p.ResultCode = .jnum 0)

/-- The balance update inside `db.runTransaction`: `newBal = amount;
if (doc.exists) newBal += doc.data().balance || 0;` then a full
(non-merge) `set` of `{phone, balance, updatedAt}`. -/
def creditUser (db : DB) (phone : String) (amt : ℚ) (now : Nat) : DB :=
  let newBal : JVal :=
    match kvLookup db.users phone with
    | none => .jnum amt
    | some u => jsAddNum amt (jsOrZero (u.balance.getD .jundef))
  let u : UserDoc := { phone := some phone, balance := some newBal, updatedAt := some now }
  { db with users := kvSet db.users phone u }

/-- The success-branch transaction write: a merge `set` of
`{phone, amount, status: "SUCCESS", reference, callback, updatedAt}`
(creating the document when the reference is unknown). -/
def applySuccessTxn (db : DB) (refStr phone : String) (amt : ℚ) (p : Payload) (now : Nat) : DB :=
  let t0 := (kvLookup db.transactions refStr).getD {}
  let t1 := { t0 with
    phone := some phone, amount := some amt, status := some "SUCCESS",
    reference := some refStr, callbackData := some p, updatedAt := some now }
  { db with transactions := kvSet db.transactions refStr t1 }

/-- The failure-branch transaction write: a merge `set` of only
`{status: "FAILED", callback, updatedAt}`. -/
def applyFailedTxn (db : DB) (refStr : String) (p : Payload) (now : Nat) : DB :=
  let t0 := (kvLookup db.transactions refStr).getD {}
  let t1 := { t0 with status := some "FAILED", callbackData := some p, updatedAt := some now }
  { db with transactions := kvSet db.transactions refStr t1 }

/-- The body of the `/callback` handler after the secret check, as an
exception-carrying computation: extraction, the two ignore checks, the
success classification and the two branches.  All throw sites precede
every store write, so `Except.error` leaves the state untouched. -/
def callbackProcessE (p : Payload) (db : DB) (hub : Hub) (now : Nat) : Except Unit CbOut :=
  match formatPhoneJ (phoneChain p) with
  | .error e => .error e
  | .ok none => .ok ⟨⟨200, 0, "Ignored (missing ids)"⟩, db, hub, []⟩
  | .ok (some phone) =>
    if !truthy (referenceChain p) then .ok ⟨⟨200, 0, "Ignored (missing ids)"⟩, db, hub, []⟩
    else
      match parseFloatJ (amountChain p) with
      | none => .ok ⟨⟨200, 0, "Ignored invalid amount"⟩, db, hub, []⟩
      | some amt =>
        if qle amt 0 then .ok ⟨⟨200, 0, "Ignored invalid amount"⟩, db, hub, []⟩
        else
          match isSuccessE p with
          | .error e => .error e
          | .ok ok =>
            match refKey (referenceChain p) with
            | .error e => .error e
            | .ok refStr =>
              if ok then
                let db2 := creditUser (applySuccessTxn db refStr phone amt p now) phone amt now
                let b := broadcast db2 hub phone (some "SUCCESS") (some refStr) now
                .ok ⟨⟨200, 0, "OK"⟩, b.db, b.hub, b.pushes⟩
              else
                let db1 := applyFailedTxn db refStr p now
                let b := broadcast db1 hub phone (some "FAILED") (some refStr) now
                .ok ⟨⟨200, 0, "OK"⟩, b.db, b.hub, b.pushes⟩

/-- The `/callback` body with its `try/catch`: a throw becomes the 500
`{ResultCode: 1, ResultDesc: "Failed"}` response (no write precedes any
throw site). -/
def callbackProcess (p : Payload) (db : DB) (hub : Hub) (now : Nat) : CbOut :=
  match callbackProcessE p db hub now with
  | .ok o => o
  | .error _ => ⟨⟨500, 1, "Failed"⟩, db, hub, []⟩

/-- Is `process.env.CALLBACK_SECRET` truthy?  (`none` = variable unset,
`some ""` = set but empty; both are falsy.) -/
def secretConfigured : Option String → Bool
  | some s => s ≠ ""
  | none => false

/-- The full `/callback` handler: when a secret is configured and the
`secret` query parameter differs, answer 401 `{ResultCode: 1}` without
touching the payload or the stores; otherwise run the body. -/
def callbackHandler (cfg qsec : Option String) (p : Payload)
    (db : DB) (hub : Hub) (now : Nat) : CbOut :=
  if secretConfigured cfg && !(qsec = some (cfg.getD "")) then
    ⟨⟨401, 1, "Unauthorized"⟩, db, hub, []⟩
  else callbackProcess p db hub now

/-!  ## The `/update-status/:reference` handler
(src/unnamed/part_000 lines 589-634) -/

/-- The `{success, message}`-shaped responses of `/pay` and `/update-status`. -/
structure BasicResp where
  httpStatus : Nat
  success : Bool
  message : String
  deriving DecidableEq

/-- Result of an `/update-status` or `/pay` request. -/
structure HOut where
  resp : BasicResp
  db : DB
  hub : Hub
  pushes : List (Nat × SnapPayload)
  deriving DecidableEq

/-- JS truthiness of a stored string field. -/
def truthyOptStr : Option String → Bool
  | some s => s ≠ ""
  | none => false

/-- JS truthiness of a stored numeric field (`none` = absent, falsy). -/
def truthyOptNum : Option ℚ → Bool
  | some q => q ≠ 0
  | none => false

/-- The `/update-status/:reference` handler: 404 for an unknown
reference; otherwise write `{status: (status || "").toUpperCase(),
updatedAt}` unconditionally, then — from the pre-write read `txnData` —
credit and broadcast on `"SUCCESS"`, or broadcast on `"FAILED"`.  A
truthy non-string `status` body makes `toUpperCase` throw, caught as a
500 before any write. -/
def updateStatusHandler (reference : String) (statusBody : JVal)
    (db : DB) (hub : Hub) (now : Nat) : HOut :=
  match kvLookup db.transactions reference with
  | none => ⟨⟨404, false, "Transaction not found"⟩, db, hub, []⟩
  | some txnData =>
    match toUpperJ (jsOr statusBody (.jstr "")) with
    | .error _ => ⟨⟨500, false, "Server error"⟩, db, hub, []⟩
    | .ok up =>
      let t1 := { txnData with status := some up, updatedAt := some now }
      let db1 := { db with transactions := kvSet db.transactions reference t1 }
      let okResp : BasicResp :=
        ⟨200, true, "Transaction " ++ reference ++ " updated to " ++ up⟩
      if up = "SUCCESS" && truthyOptStr txnData.phone && truthyOptNum txnData.amount then
        let phone := txnData.phone.getD ""
        let db2 := creditUser db1 phone (txnData.amount.getD 0) now
        let b := broadcast db2 hub phone (some "SUCCESS") (some reference) now
        ⟨okResp, b.db, b.hub, b.pushes⟩
      else if up = "FAILED" && truthyOptStr txnData.phone then
        let b := broadcast db1 hub (txnData.phone.getD "") (some "FAILED") (some reference) now
        ⟨okResp, b.db, b.hub, b.pushes⟩
      else ⟨okResp, db1, hub, []⟩

/-!  ## The `/pay` handler (src/unnamed/part_000 lines 361-472) -/

/-- Outcome of the awaited outbound gateway call: either axios resolved
with a response body carrying `{success, error?}`, or the await threw
(timeout elapsed, network failure, or non-2xx status). -/
inductive GatewayResult where
  | response (success : Bool) (error : Option String)
  | failure
  deriving DecidableEq

/-- The `timeout` option passed to the axios gateway call (line 410). -/
def payGatewayTimeoutMs : Nat := 30000

/-- The `/pay` handler: validate phone and amount, create the PENDING
transaction (a full, non-merge write), broadcast PENDING, call the
gateway (bounded by `payGatewayTimeoutMs`), then on a success response
merge-write INITIATED; on an unsuccessful response merge-write FAILED
and broadcast FAILED; on a thrown error (timeout included) the catch
answers 500 without any further transaction write. -/
def payHandler (bphone bamount : JVal) (gw : GatewayResult)
    (db : DB) (hub : Hub) (now : Nat) : HOut :=
  match formatPhoneJ bphone with
  | .error _ => ⟨⟨500, false, "Server error during /pay"⟩, db, hub, []⟩
  | .ok none => ⟨⟨400, false, "Invalid phone format"⟩, db, hub, []⟩
  | .ok (some ph) =>
    if !truthy bamount || jsLtNum bamount 1 then
      ⟨⟨400, false, "Amount must be >= 1"⟩, db, hub, []⟩
    else
      let ref := "ORDER-" ++ String.mk (natToChars now)
      let rounded : Option ℚ := (jsNumber bamount).map mathRound
      let tp : Txn := {
        phone := some ph, amount := rounded, status := some "PENDING",
        reference := some ref, createdAt := some now }
      let db1 := { db with transactions := kvSet db.transactions ref tp }
      let b1 := broadcast db1 hub ph (some "PENDING") (some ref) now
      match gw with
      | .failure => ⟨⟨500, false, "Server error during /pay"⟩, b1.db, b1.hub, b1.pushes⟩
      | .response ok gerr =>
        if ok then
          let t0 := (kvLookup b1.db.transactions ref).getD {}
          let t1 := { t0 with
            phone := some ph, amount := rounded, status := some "INITIATED",
            reference := some ref, swiftwallet := some (), updatedAt := some now }
          let db2 := { b1.db with transactions := kvSet b1.db.transactions ref t1 }
          ⟨⟨200, true, "STK push sent, check your phone"⟩, db2, b1.hub, b1.pushes⟩
        else
          let msg := match gerr with
            | some e => if e = "" then "Payment initiation failed" else e
            | none => "Payment initiation failed"
          let t0 := (kvLookup b1.db.transactions ref).getD {}
          let t1 := { t0 with
            phone := some ph, amount := rounded, status := some "FAILED",
            reference := some ref, error := some msg, updatedAt := some now }
          let db2 := { b1.db with transactions := kvSet b1.db.transactions ref t1 }
          let b2 := broadcast db2 b1.hub ph (some "FAILED") (some ref) now
          ⟨⟨400, false, msg⟩, b2.db, b2.hub, b1.pushes ++ b2.pushes⟩

/-!  ## The `GET /events/:phone` handler
(src/unnamed/part_000 lines 318-358) -/

/-- Result of opening an SSE stream. -/
structure EOut where
  httpStatus : Nat
  db : DB
  hub : Hub
  pushes : List (Nat × SnapPayload)
  deriving DecidableEq

/-- The `/events/:phone` handler: validate the phone, register the
connection (heartbeat started), then immediately compute and push one
full snapshot (`status`/`reference` null).  A failing initial write is
caught and merely logged. -/
def eventsHandler (rawPhone : String) (c : Conn)
    (db : DB) (hub : Hub) (now : Nat) : EOut :=
  match formatPhone rawPhone with
  | none => ⟨400, db, hub, []⟩
  | some ph =>
    let hub1 := addSseClient hub ph c
    let snap := snapshotFor db ph now
    let pushes :=
      if c.pushOk then
        [(c.id, (⟨ph, snap.balance, snap.transactions, none, none, now⟩ : SnapPayload))]
      else []
    ⟨200, snap.db, hub1, pushes⟩

/-!  ## Observation helpers and concrete fixtures -/

/-- The stored balance value of an identity (`none` when the user
document or the field is absent). -/
def userBalance (db : DB) (phone : String) : Option JVal :=
  (kvLookup db.users phone).bind (fun u => u.balance)

/-- The stored status of a transaction (`none` when the document is absent). -/
def txnStatus (db : DB) (r : String) : Option (Option String) :=
  (kvLookup db.transactions r).map (fun t => t.status)

/-- A normalised identity used by the concrete scenarios. -/
def phoneA : String := "254712345678"

/-- An empty hub (no live connections). -/
def hubEmpty : Hub := {}

/-- A well-formed success callback for reference `R1`, amount 100. -/
def successCb : Payload :=
  { success := .jbool true, phone_number := .jstr "0712345678",
    external_reference := .jstr "R1", amount := .jnum 100 }

/-- A store holding one INITIATED transaction `R1` awaiting its callback. -/
def dbInitiated : DB :=
  { transactions := [("R1",
      { phone := some phoneA, amount := some 100, status := some "INITIATED",
        reference := some "R1", createdAt := some 1 })],
    users := [] }

/-- First delivery of the success callback for `R1`. -/
def cbOnce : CbOut := callbackHandler none none successCb dbInitiated hubEmpty 2

/-- The same success callback replayed after `R1` already reached SUCCESS. -/
def cbTwice : CbOut := callbackHandler none none successCb cbOnce.db hubEmpty 3

/-- A manual override to SUCCESS after `R1` already reached SUCCESS. -/
def overAgain : HOut := updateStatusHandler "R1" (.jstr "SUCCESS") cbOnce.db hubEmpty 4

/-- A failure callback for reference `R2`. -/
def failedCb : Payload :=
  { status := .jstr "failed", phone_number := .jstr "0712345678",
    external_reference := .jstr "R2", amount := .jnum 100 }

/-- A store in which `R2` already reached SUCCESS and the balance holds
its credit. -/
def dbSucceeded : DB :=
  { transactions := [("R2",
      { phone := some phoneA, amount := some 100, status := some "SUCCESS",
        reference := some "R2", createdAt := some 1 })],
    users := [(phoneA,
      { phone := some phoneA, balance := some (.jnum 100), updatedAt := some 1 })] }

/-- The late failure callback delivered after `R2` reached SUCCESS. -/
def cbLateFail : CbOut := callbackHandler none none failedCb dbSucceeded hubEmpty 5

/-- A manual override to FAILED delivered after `R2` reached SUCCESS. -/
def overLateFail : HOut := updateStatusHandler "R2" (.jstr "failed") dbSucceeded hubEmpty 6

/-- A store whose user document exists but carries no `balance` field,
while one SUCCESS transaction of amount 100 exists for the identity. -/
def dbNoBalanceField : DB :=
  { transactions := [("R3",
      { phone := some phoneA, amount := some 100, status := some "SUCCESS",
        reference := some "R3", createdAt := some 1 })],
    users := [(phoneA, { phone := some phoneA })] }

/-- A store whose stored balance is negative (self-heal must trigger). -/
def dbNegBalance : DB :=
  { transactions := [("R4",
      { phone := some phoneA, amount := some 100, status := some "SUCCESS",
        reference := some "R4", createdAt := some 1 })],
    users := [(phoneA,
      { phone := some phoneA, balance := some (.jnum (-7)), updatedAt := some 1 })] }

/-- A callback whose `status` field is the number `0` and which carries
no other success signal. -/
def zeroStatusCb : Payload :=
  { status := .jnum 0, phone_number := .jstr "0712345678",
    external_reference := .jstr "R5", amount := .jnum 100 }

/-- A store holding one INITIATED transaction `R5`. -/
def dbR5 : DB :=
  { transactions := [("R5",
      { phone := some phoneA, amount := some 100, status := some "INITIATED",
        reference := some "R5", createdAt := some 1 })],
    users := [] }

/-!  ## Specification-side predicates (from the claims' words) -/

/-- The classification policy exactly as the claim words it: an explicit
success flag set to `true`, or a status/result-code field equal to zero
(numeric `0` or the string `"0"`), or a status equal to `"completed"`
case-insensitively, or a result description containing `"success"`
case-insensitively. -/
def specIsSuccess (p : Payload) : Bool :=
  p.success = .jbool true ||
  p.status = .jnum 0 || p.status = .jstr "0" ||
  p.resultStatus = .jnum 0 || p.resultStatus = .jstr "0" ||
  p.ResultCode = .jnum 0 || p.ResultCode = .jstr "0" ||
  (match p.status with | .jstr s => lowerStr s = "completed" | _ => false) ||
  (match p.resultStatus with | .jstr s => lowerStr s = "completed" | _ => false) ||
  (match p.ResultDesc with | .jstr s => strIncludes (lowerStr s) "success" | _ => false) ||
  (match p.resultResultDesc with | .jstr s => strIncludes (lowerStr s) "success" | _ => false)

/-- The classification the code actually implements, written out as a
single boolean formula (the amended form of claim C5): the coalesced
status chain is consulted — so a falsy field value (such as the number
`0`) is skipped in favour of later candidates — and only the top-level
`ResultCode` is additionally checked directly. -/
def actualIsSuccess (p : Payload) : Bool :=
  p.success = .jbool true ||
  statusChain p = .jstr "0" || statusChain p = .jnum 0 ||
  (truthy (statusChain p) && lowerStr (jsToString (statusChain p)) = "completed") ||
  (truthy (descChain p) &&
    (match descChain p with | .jstr s => strIncludes (lowerStr s) "success" | _ => false)) ||
  p.ResultCode = .jstr "0" || p.ResultCode = .jnum 0

/-!  ## General lemmas about the store, snapshots and the hub -/

theorem kvLookup_kvSet_self {α : Type} (s : List (String × α)) (k : String) (v : α) :
    kvLookup (kvSet s k v) k = some v := by
  induction s with
  | nil => simp [kvSet, kvLookup]
  | cons hd tl ih =>
    by_cases h : hd.1 = k
    · simp [kvSet, kvLookup, h]
    · simpa [kvSet, kvLookup, h] using ih

theorem kvLookup_kvErase_self {α : Type} (s : List (String × α)) (k : String) :
    kvLookup (kvErase s k) k = none := by
  induction s with
  | nil => simp [kvErase, kvLookup]
  | cons hd tl ih =>
    by_cases h : hd.1 = k
    · simpa [kvErase, List.filter, h] using ih
    · simpa [kvErase, List.filter, h, kvLookup] using ih

theorem snapshotFor_transactions (db : DB) (phone : String) (now : Nat) :
    (snapshotFor db phone now).db.transactions = db.transactions := by
  unfold snapshotFor
  by_cases h : snapNeedsHeal db phone <;> simp [h]

theorem snapshotFor_txlist (db : DB) (phone : String) (now : Nat) :
    (snapshotFor db phone now).transactions = lastFive db phone now := rfl

theorem broadcast_transactions (db : DB) (hub : Hub) (phone : String)
    (st ref : Option String) (now : Nat) :
    (broadcast db hub phone st ref now).db.transactions = db.transactions := by
  unfold broadcast
  cases hk : kvLookup hub.sseClients phone with
  | none => rfl
  | some set =>
    by_cases hs : set.isEmpty <;> simp [hs, snapshotFor_transactions]

/-!  ## Claim C1 -/

/-- C1: the claim says a SUCCESS callback (or SUCCESS override) for a
reference already at SUCCESS skips the credit and leaves the balance
unchanged.  The code has no such guard: after the first success callback
for `R1` the stored status is SUCCESS and the balance 100, yet replaying
the identical callback credits again (balance 200), and a manual
override to SUCCESS from that state likewise credits again. -/
theorem claim1_duplicate_success_credits_again :
    txnStatus cbOnce.db "R1" = some (some "SUCCESS") ∧
    userBalance cbOnce.db phoneA = some (.jnum 100) ∧
    userBalance cbTwice.db phoneA = some (.jnum 200) ∧
    userBalance overAgain.db phoneA = some (.jnum 200) := by decide

/-!  ## Claim C2 -/

/-- C2: the claim says SUCCESS is terminal.  The code overwrites it: with
`R2` stored as SUCCESS, a failure callback for `R2` merge-writes status
FAILED, and so does a manual override to `failed`. -/
theorem claim2_failed_overwrites_success :
    txnStatus dbSucceeded "R2" = some (some "SUCCESS") ∧
    txnStatus cbLateFail.db "R2" = some (some "FAILED") ∧
    txnStatus overLateFail.db "R2" = some (some "FAILED") := by decide

/-!  ## Claim C3 -/

/-- C3 counterexample: an existing user document with an absent `balance`
field is a "missing stored balance", and the identity has a SUCCESS
transaction of amount 100 — yet `snapshotFor` returns 0 (the field
coerces to the valid number 0 through `balance || 0`) and performs no
recomputation and no write, where the claim requires the recomputed
value 100 to be returned and persisted. -/
theorem claim3_counterexample :
    userBalance dbNoBalanceField phoneA = none ∧
    successSum dbNoBalanceField phoneA = 100 ∧
    (snapshotFor dbNoBalanceField phoneA 9).balance = 0 ∧
    (snapshotFor dbNoBalanceField phoneA 9).db = dbNoBalanceField := by decide

/-- C3 (amended): `snapshotFor` recomputes the balance as the sum of the
identity's SUCCESS transaction amounts, persists it and returns it
exactly when the user document is absent, the stored balance does not
coerce to a finite number, or it is negative; otherwise (any stored
value coercing to a finite non-negative number — including an absent or
falsy field, which `|| 0` turns into the valid balance 0) it returns the
coerced stored value and mutates nothing. -/
theorem claim3_snapshot_selfheal (db : DB) (phone : String) (now : Nat) :
    (snapNeedsHeal db phone = true →
      (snapshotFor db phone now).balance = successSum db phone ∧
      (snapshotFor db phone now).db.transactions = db.transactions ∧
      kvLookup (snapshotFor db phone now).db.users phone =
        some { phone := some phone, balance := some (.jnum (successSum db phone)),
               updatedAt := some now }) ∧
    (snapNeedsHeal db phone = false →
      (snapshotFor db phone now).balance = (storedBalNum db phone).getD 0 ∧
      (snapshotFor db phone now).db = db) := by
  constructor
  · intro h
    simp [snapshotFor, h, kvLookup_kvSet_self]
  · intro h
    simp [snapshotFor, h]

/-- C3 witness: on a store with a negative stored balance the self-heal
branch of `claim3_snapshot_selfheal` fires concretely. -/
theorem claim3_selfheal_witness :
    (snapshotFor dbNegBalance phoneA 9).balance = successSum dbNegBalance phoneA ∧
    kvLookup (snapshotFor dbNegBalance phoneA 9).db.users phoneA =
      some { phone := some phoneA, balance := some (.jnum (successSum dbNegBalance phoneA)),
             updatedAt := some 9 } :=
  ⟨((claim3_snapshot_selfheal dbNegBalance phoneA 9).1 (by decide)).1,
   ((claim3_snapshot_selfheal dbNegBalance phoneA 9).1 (by decide)).2.2⟩

/-!  ## Claim C5 -/

/-- C5 counterexample: a payload whose `status` field is the number `0`
(and which carries no other signal) is classified success by the claim's
policy but failure by the code — `status || result.status || ResultCode`
skips the falsy `0`, the chain ends at `undefined`, and the direct
`ResultCode` checks see nothing — so the transaction transitions to
FAILED. -/
theorem claim5_counterexample :
    specIsSuccess zeroStatusCb = true ∧
    isSuccessE zeroStatusCb = .ok false ∧
    txnStatus (callbackHandler none none zeroStatusCb dbR5 hubEmpty 7).db "R5" =
      some (some "FAILED") := by decide

/-!  ## Claim C9 -/

/-- C9: when `CALLBACK_SECRET` is configured (truthy) and the request's
`secret` query parameter differs from it, the handler answers 401 with
`ResultCode` 1 and neither reads the payload nor mutates the stores, the
hub, or pushes anything — for every payload and every state. -/
theorem claim9_unauthorized_rejected (s : String) (qsec : Option String) (p : Payload)
    (db : DB) (hub : Hub) (now : Nat) (hs : s ≠ "") (hq : qsec ≠ some s) :
    callbackHandler (some s) qsec p db hub now = ⟨⟨401, 1, "Unauthorized"⟩, db, hub, []⟩ := by
  simp [callbackHandler, secretConfigured, hs, hq]

/-- C9 witness: a concrete wrong-secret request is rejected unchanged. -/
theorem claim9_unauthorized_witness :
    callbackHandler (some "hunter2") (some "wrong") successCb dbInitiated hubEmpty 3 =
      ⟨⟨401, 1, "Unauthorized"⟩, dbInitiated, hubEmpty, []⟩ :=
  claim9_unauthorized_rejected "hunter2" (some "wrong") successCb dbInitiated hubEmpty 3
    (by decide) (by decide)

/-!  ## Claim C10 -/

/-- C10: when `CALLBACK_SECRET` is unset or empty the guard
short-circuits, so every request — whatever its `secret` query parameter
— runs the payload-processing body, which can mutate the stores (shown
on a concrete success callback). -/
theorem claim10_no_secret_no_auth (cfg : Option String) (h : cfg = none ∨ cfg = some "") :
    (∀ qsec p db hub now, callbackHandler cfg qsec p db hub now = callbackProcess p db hub now) ∧
    (callbackProcess successCb dbInitiated hubEmpty 2).db ≠ dbInitiated := by
  constructor
  · rcases h with h | h <;> subst h <;>
      intro qsec p db hub now <;> simp [callbackHandler, secretConfigured]
  · decide

/-- C10 witness: with the secret unset, a request carrying an arbitrary
`secret` parameter is processed, and the processing mutates the store. -/
theorem claim10_no_secret_witness :
    callbackHandler none (some "anything") successCb dbInitiated hubEmpty 2 =
      callbackProcess successCb dbInitiated hubEmpty 2 ∧
    (callbackProcess successCb dbInitiated hubEmpty 2).db ≠ dbInitiated :=
  ⟨(claim10_no_secret_no_auth none (Or.inl rfl)).1 (some "anything") successCb dbInitiated hubEmpty 2,
   (claim10_no_secret_no_auth none (Or.inl rfl)).2⟩

/-!  ## Claim C4 -/

/-- C4: an authorized callback whose extracted phone is null, whose
reference chain is falsy, or whose parsed amount is `NaN` or
non-positive, is acknowledged with HTTP 200 and `ResultCode` 0 (one of
the two "Ignored" descriptions) and no store, hub or push changes at
all. -/
theorem claim4_invalid_callback_ignored
    (cfg qsec : Option String) (p : Payload) (db : DB) (hub : Hub) (now : Nat)
    (po : Option String)
    (hauth : (secretConfigured cfg && !(qsec = some (cfg.getD ""))) = false)
    (hphone : formatPhoneJ (phoneChain p) = .ok po)
    (hbad : po = none ∨ truthy (referenceChain p) = false ∨
            parseFloatJ (amountChain p) = none ∨
            ∃ q, parseFloatJ (amountChain p) = some q ∧ qle q 0 = true) :
    ∃ d, callbackHandler cfg qsec p db hub now = ⟨⟨200, 0, d⟩, db, hub, []⟩ ∧
         (d = "Ignored (missing ids)" ∨ d = "Ignored invalid amount") := by
  have hh : callbackHandler cfg qsec p db hub now = callbackProcess p db hub now := by
    simp [callbackHandler, hauth]
  rw [hh]
  cases po with
  | none =>
    exact ⟨"Ignored (missing ids)", by simp [callbackProcess, callbackProcessE, hphone], Or.inl rfl⟩
  | some phone =>
    by_cases hr : truthy (referenceChain p)
    · have hamt : parseFloatJ (amountChain p) = none ∨
          ∃ q, parseFloatJ (amountChain p) = some q ∧ qle q 0 = true := by
        rcases hbad with h | h | h | h
        · exact absurd h (by simp)
        · rw [h] at hr; exact absurd hr (by simp)
        · exact Or.inl h
        · exact Or.inr h
      rcases hamt with h | ⟨q, hq, hle⟩
      · exact ⟨"Ignored invalid amount",
          by simp [callbackProcess, callbackProcessE, hphone, hr, h], Or.inr rfl⟩
      · exact ⟨"Ignored invalid amount",
          by simp [callbackProcess, callbackProcessE, hphone, hr, hq, hle], Or.inr rfl⟩
    · exact ⟨"Ignored (missing ids)",
        by simp [callbackProcess, callbackProcessE, hphone, hr], Or.inl rfl⟩

/-- C4 witness: a concrete authorized callback with a valid phone and
reference but amount `0` is ignored with result code 0 and no change. -/
theorem claim4_ignored_witness :
    ∃ d, callbackHandler none none
        { phone_number := .jstr "0712345678", external_reference := .jstr "R9",
          amount := .jnum 0 } dbInitiated hubEmpty 8 =
      ⟨⟨200, 0, d⟩, dbInitiated, hubEmpty, []⟩ ∧
      (d = "Ignored (missing ids)" ∨ d = "Ignored invalid amount") :=
  claim4_invalid_callback_ignored none none
    { phone_number := .jstr "0712345678", external_reference := .jstr "R9",
      amount := .jnum 0 }
    dbInitiated hubEmpty 8 (some "254712345678") (by decide) (by decide)
    (Or.inr (Or.inr (Or.inr ⟨0, by decide, by decide⟩)))

/-!  ## Claim C5 (amended theorem) -/

/-- C5 (amended): the success classification equals `actualIsSuccess`: an
explicit `success === true`; or the *coalesced* chain
`status || result.status || ResultCode` — which skips falsy candidates,
so a numeric `0` in `status` or `result.status` is never seen — equal to
`"0"` or `0`, or truthy and lower-casing to `"completed"`; or a truthy
result description containing `"success"`; or the top-level `ResultCode`
equal to `"0"` or `0`.  Stated under the proviso that a truthy result
description is a string (otherwise the code throws instead of
classifying). -/
theorem claim5_isSuccess_amended (p : Payload)
    (hd : truthy (descChain p) = true → ∃ s, descChain p = .jstr s) :
    isSuccessE p = .ok (actualIsSuccess p) := by
  unfold isSuccessE actualIsSuccess
  by_cases h1 : p.success = .jbool true
  · simp [h1]
  · by_cases h2 : statusChain p = .jstr "0"
    · simp [h1, h2]
    · by_cases h3 : statusChain p = .jnum 0
      · simp [h1, h2, h3]
      · by_cases h4 : (truthy (statusChain p) && lowerStr (jsToString (statusChain p)) = "completed") = true
        · simp [h1, h2, h3, h4]
        · by_cases h5 : truthy (descChain p) = true
          · obtain ⟨s, hs⟩ := hd h5
            rw [hs] at h5 ⊢
            by_cases h6 : strIncludes (lowerStr s) "success" = true
            · simp [h1, h2, h3, h4, h5, h6, toLowerJ]
            · simp [h1, h2, h3, h4, h5, h6, toLowerJ]
          · simp [h1, h2, h3, h4, h5]

/-- C5 witness for the amended theorem: a payload whose only signal is a
result description containing "SUCCESS" is classified success. -/
theorem claim5_amended_witness :
    isSuccessE { ResultDesc := .jstr "Request processed SUCCESSfully" } =
      .ok (actualIsSuccess { ResultDesc := .jstr "Request processed SUCCESSfully" }) :=
  claim5_isSuccess_amended { ResultDesc := .jstr "Request processed SUCCESSfully" }
    (fun _ => ⟨"Request processed SUCCESSfully", rfl⟩)

/-!  ## Claim C6 -/

/-- The `/pay` request with a thrown gateway call (timeout included) on
an empty store, used to exhibit the claim's failure. -/
def payFailOut : HOut := payHandler (.jstr "0712345678") (.jnum 100) .failure {} hubEmpty 5

/-- C6 counterexample: when the gateway call throws (which is what the
30s timeout produces), the caller does receive a failure response (500),
but the PENDING transaction created for the request is NOT marked
FAILED — it remains PENDING, where the claim requires FAILED. -/
theorem claim6_counterexample :
    payFailOut.resp.httpStatus = 500 ∧ payFailOut.resp.success = false ∧
    txnStatus payFailOut.db "ORDER-5" = some (some "PENDING") := by decide

/-- C6 (amended): the axios gateway call is bounded by the 30000 ms
`timeout` option; a gateway *response* with a falsy `success` marks the
transaction FAILED and answers 400, but a *thrown* failure (timeout,
network error, non-2xx status) is swallowed by the catch: the caller
gets a 500 failure response while the transaction stays PENDING. -/
theorem claim6_pay_failure_amended (bphone bamount : JVal) (ph : String) (gerr : Option String)
    (db : DB) (hub : Hub) (now : Nat)
    (hp : formatPhoneJ bphone = .ok (some ph))
    (ht : truthy bamount = true) (hlt : jsLtNum bamount 1 = false) :
    payGatewayTimeoutMs = 30000 ∧
    ((payHandler bphone bamount .failure db hub now).resp.httpStatus = 500 ∧
     (payHandler bphone bamount .failure db hub now).resp.success = false ∧
     txnStatus (payHandler bphone bamount .failure db hub now).db
       ("ORDER-" ++ String.mk (natToChars now)) = some (some "PENDING")) ∧
    ((payHandler bphone bamount (.response false gerr) db hub now).resp.httpStatus = 400 ∧
     (payHandler bphone bamount (.response false gerr) db hub now).resp.success = false ∧
     txnStatus (payHandler bphone bamount (.response false gerr) db hub now).db
       ("ORDER-" ++ String.mk (natToChars now)) = some (some "FAILED")) := by
  refine ⟨rfl, ?_, ?_⟩
  · unfold payHandler
    rw [hp]
    simp [ht, hlt, txnStatus, broadcast_transactions, kvLookup_kvSet_self]
  · unfold payHandler
    rw [hp]
    simp [ht, hlt, txnStatus, broadcast_transactions, kvLookup_kvSet_self]

/-- C6 witness for the amended theorem, at a concrete valid request. -/
theorem claim6_pay_witness :
    payGatewayTimeoutMs = 30000 ∧
    ((payHandler (.jstr "0712345678") (.jnum 100) .failure {} hubEmpty 5).resp.httpStatus = 500 ∧
     (payHandler (.jstr "0712345678") (.jnum 100) .failure {} hubEmpty 5).resp.success = false ∧
     txnStatus (payHandler (.jstr "0712345678") (.jnum 100) .failure {} hubEmpty 5).db
       ("ORDER-" ++ String.mk (natToChars 5)) = some (some "PENDING")) ∧
    ((payHandler (.jstr "0712345678") (.jnum 100) (.response false none) {} hubEmpty 5).resp.httpStatus = 400 ∧
     (payHandler (.jstr "0712345678") (.jnum 100) (.response false none) {} hubEmpty 5).resp.success = false ∧
     txnStatus (payHandler (.jstr "0712345678") (.jnum 100) (.response false none) {} hubEmpty 5).db
       ("ORDER-" ++ String.mk (natToChars 5)) = some (some "FAILED")) :=
  claim6_pay_failure_amended (.jstr "0712345678") (.jnum 100) "254712345678" none {} hubEmpty 5
    (by decide) (by decide) (by decide)

/-!  ## Lemmas about connection removal (for claim C7) -/

/-- The ids of a connection list. -/
def connIds (l : List Conn) : List Nat := l.map (fun c => c.id)

/-- Absence of a connection id from a phone's registry entry and from the
scheduled heartbeat timers. -/
def idAbsent (hub : Hub) (phone : String) (i : Nat) : Prop :=
  i ∉ connIds (connsAt hub phone) ∧ i ∉ hub.timers

theorem removeFirstConn_sublist (l : List Conn) (i : Nat) :
    List.Sublist (removeFirstConn l i) l := by
  induction l with
  | nil => simp [removeFirstConn]
  | cons c rest ih =>
    by_cases h : c.id = i
    · rw [removeFirstConn, if_pos h]
      exact List.sublist_cons_self c rest
    · rw [removeFirstConn, if_neg h]
      exact ih.cons₂ c

theorem connIds_removeFirst_not_mem (l : List Conn) (i : Nat)
    (h : (connIds l).Nodup) : i ∉ connIds (removeFirstConn l i) := by
  induction l with
  | nil => simp [removeFirstConn, connIds]
  | cons c rest ih =>
    rw [connIds, List.map_cons, List.nodup_cons] at h
    by_cases hc : c.id = i
    · rw [removeFirstConn, if_pos hc]
      exact fun hm => h.1 (hc ▸ hm)
    · rw [removeFirstConn, if_neg hc, connIds, List.map_cons]
      intro hm
      rcases List.mem_cons.mp hm with he | he
      · exact hc he.symm
      · exact ih h.2 he

theorem connIds_mem_removeFirst_of_ne (l : List Conn) (i j : Nat) (hne : i ≠ j)
    (h : i ∈ connIds l) : i ∈ connIds (removeFirstConn l j) := by
  induction l with
  | nil => simp [connIds] at h
  | cons c rest ih =>
    rw [connIds, List.map_cons, List.mem_cons] at h
    by_cases hc : c.id = j
    · rw [removeFirstConn, if_pos hc]
      rcases h with h | h
      · exact absurd (h.trans hc) hne
      · exact h
    · rw [removeFirstConn, if_neg hc, connIds, List.map_cons, List.mem_cons]
      rcases h with h | h
      · exact Or.inl h
      · exact Or.inr (ih h)

theorem remove_preserves_absent (hub : Hub) (phone : String) (i j : Nat)
    (h : idAbsent hub phone i) : idAbsent (removeSseClient hub phone j) phone i := by
  obtain ⟨h1, h2⟩ := h
  unfold removeSseClient
  cases hk : kvLookup hub.sseClients phone with
  | none => exact ⟨h1, h2⟩
  | some set =>
    have hset : connsAt hub phone = set := by simp [connsAt, hk]
    rw [hset] at h1
    constructor
    · by_cases he : (removeFirstConn set j).isEmpty
      · simp [connsAt, he, kvLookup_kvErase_self, connIds]
      · simp only [he, Bool.false_eq_true, if_false, connsAt, kvLookup_kvSet_self,
          Option.getD_some]
        intro hm
        have hsub : List.Sublist (connIds (removeFirstConn set j)) (connIds set) := by
          simpa [connIds] using (removeFirstConn_sublist set j).map (fun c => c.id)
        exact h1 (hsub.mem hm)
    · by_cases hf : set.any (fun c => c.id = j)
      · simp only [hf, if_true]
        exact fun hm => h2 (List.mem_of_mem_erase hm)
      · simp only [hf, Bool.false_eq_true, if_false]
        exact h2

theorem remove_self_absent (hub : Hub) (phone : String) (i : Nat)
    (hmem : i ∈ connIds (connsAt hub phone))
    (hnd : (connIds (connsAt hub phone)).Nodup) (htn : hub.timers.Nodup) :
    idAbsent (removeSseClient hub phone i) phone i := by
  unfold removeSseClient
  cases hk : kvLookup hub.sseClients phone with
  | none =>
    rw [connsAt, hk] at hmem
    simp [connIds] at hmem
  | some set =>
    have hset : connsAt hub phone = set := by simp [connsAt, hk]
    rw [hset] at hmem hnd
    constructor
    · by_cases he : (removeFirstConn set i).isEmpty
      · simp [connsAt, he, kvLookup_kvErase_self, connIds]
      · simp only [he, Bool.false_eq_true, if_false, connsAt, kvLookup_kvSet_self,
          Option.getD_some]
        exact connIds_removeFirst_not_mem set i hnd
    · have hfound : set.any (fun c => c.id = i) = true := by
        obtain ⟨c, hc, hci⟩ := List.mem_map.mp hmem
        exact List.any_eq_true.mpr ⟨c, hc, by simp [hci]⟩
      simp only [hfound, if_true]
      exact htn.not_mem_erase

theorem remove_other_invariants (hub : Hub) (phone : String) (i j : Nat) (hne : i ≠ j)
    (hmem : i ∈ connIds (connsAt hub phone))
    (hnd : (connIds (connsAt hub phone)).Nodup) (htn : hub.timers.Nodup) :
    i ∈ connIds (connsAt (removeSseClient hub phone j) phone) ∧
    (connIds (connsAt (removeSseClient hub phone j) phone)).Nodup ∧
    (removeSseClient hub phone j).timers.Nodup := by
  unfold removeSseClient
  cases hk : kvLookup hub.sseClients phone with
  | none => exact ⟨hmem, hnd, htn⟩
  | some set =>
    have hset : connsAt hub phone = set := by simp [connsAt, hk]
    rw [hset] at hmem hnd
    have hmem' : i ∈ connIds (removeFirstConn set j) :=
      connIds_mem_removeFirst_of_ne set i j hne hmem
    have hemp : (removeFirstConn set j).isEmpty = false := by
      cases h' : removeFirstConn set j with
      | nil => rw [h'] at hmem'; simp [connIds] at hmem'
      | cons a as => simp [h']
    have hnd' : (connIds (removeFirstConn set j)).Nodup := by
      have hsub : List.Sublist (connIds (removeFirstConn set j)) (connIds set) := by
        simpa [connIds] using (removeFirstConn_sublist set j).map (fun c => c.id)
      exact hnd.sublist hsub
    refine ⟨?_, ?_, ?_⟩
    · simpa [hemp, connsAt, kvLookup_kvSet_self] using hmem'
    · simpa [hemp, connsAt, kvLookup_kvSet_self] using hnd'
    · by_cases hf : set.any (fun c => c.id = j)
      · simpa [hf] using htn.erase j
      · simpa [hf] using htn

theorem pushAll_preserves_absent (phone : String) (payload : SnapPayload) :
    ∀ (cs : List Conn) (hub : Hub) (i : Nat),
      idAbsent hub phone i → idAbsent (pushAll phone payload cs hub).1 phone i := by
  intro cs
  induction cs with
  | nil => intro hub i h; simpa [pushAll] using h
  | cons c rest ih =>
    intro hub i h
    by_cases hp : c.pushOk
    · simpa [pushAll, hp] using ih hub i h
    · simpa [pushAll, hp] using ih _ i (remove_preserves_absent hub phone i c.id h)

theorem pushAll_snd (phone : String) (payload : SnapPayload) :
    ∀ (cs : List Conn) (hub : Hub),
      (pushAll phone payload cs hub).2 =
        (cs.filter (fun c => c.pushOk)).map (fun c => (c.id, payload)) := by
  intro cs
  induction cs with
  | nil => intro hub; simp [pushAll]
  | cons c rest ih =>
    intro hub
    by_cases hp : c.pushOk <;> simp [pushAll, hp, ih, List.filter]

theorem pushAll_removes_failed (phone : String) (payload : SnapPayload) :
    ∀ (cs : List Conn) (hub : Hub) (c : Conn),
      c ∈ cs → c.pushOk = false → (connIds cs).Nodup →
      c.id ∈ connIds (connsAt hub phone) → (connIds (connsAt hub phone)).Nodup →
      hub.timers.Nodup →
      idAbsent (pushAll phone payload cs hub).1 phone c.id := by
  intro cs
  induction cs with
  | nil =>
    intro hub c hmem
    exact absurd hmem (List.not_mem_nil c)
  | cons d rest ih =>
    intro hub c hmem hpk hnd hr hrn htn
    rw [connIds, List.map_cons, List.nodup_cons] at hnd
    rcases List.mem_cons.mp hmem with rfl | hmem'
    · have h0 := remove_self_absent hub phone c.id hr hrn htn
      simpa [pushAll, hpk] using pushAll_preserves_absent phone payload rest _ c.id h0
    · have hdc : d.id ≠ c.id := fun he => hnd.1 (he ▸ List.mem_map.mpr ⟨c, hmem', rfl⟩)
      by_cases hdp : d.pushOk
      · simpa [pushAll, hdp] using ih hub c hmem' hpk hnd.2 hr hrn htn
      · obtain ⟨h1, h2, h3⟩ :=
          remove_other_invariants hub phone c.id d.id (fun he => hdc he.symm) hr hrn htn
      -- keep going after the removal of d
        simpa [pushAll, hdp] using ih _ c hmem' hpk hnd.2 h1 h2 h3

/-!  ## Claim C7 -/

/-- C7: `broadcast` (i) is a no-op — no pushes, no store access — when
the identity has no registered connections; (ii) delivers to exactly the
currently-registered connections whose write succeeds, and every
delivery carries the snapshot freshly recomputed from the stores at call
time (no cached value exists to reuse); (iii) a connection whose write
fails is gone from the registry afterwards and its heartbeat timer is
cancelled (assuming the well-formedness the runtime guarantees: distinct
connection objects and one timer per connection). -/
theorem claim7_broadcast (db : DB) (hub : Hub) (phone : String)
    (st ref : Option String) (now : Nat) :
    (connsAt hub phone = [] → broadcast db hub phone st ref now = ⟨db, hub, []⟩) ∧
    ((broadcast db hub phone st ref now).pushes =
      ((connsAt hub phone).filter (fun c => c.pushOk)).map
        (fun c => (c.id, (⟨phone, (snapshotFor db phone now).balance,
            (snapshotFor db phone now).transactions, st, ref, now⟩ : SnapPayload)))) ∧
    (∀ c : Conn, c ∈ connsAt hub phone → c.pushOk = false →
      (connIds (connsAt hub phone)).Nodup → hub.timers.Nodup →
      c.id ∉ connIds (connsAt (broadcast db hub phone st ref now).hub phone) ∧
      c.id ∉ (broadcast db hub phone st ref now).hub.timers) := by
  refine ⟨?_, ?_, ?_⟩
  · intro h
    unfold broadcast
    cases hk : kvLookup hub.sseClients phone with
    | none => rfl
    | some set =>
      have hset : set = [] := by
        have : connsAt hub phone = set := by simp [connsAt, hk]
        rw [← this, h]
      subst hset
      simp
  · unfold broadcast
    cases hk : kvLookup hub.sseClients phone with
    | none => simp [connsAt, hk]
    | some set =>
      have hset : connsAt hub phone = set := by simp [connsAt, hk]
      by_cases he : set.isEmpty
      · have : set = [] := by
          cases set with
          | nil => rfl
          | cons a as => simp at he
        subst this
        simp [hset]
      · simp only [he, Bool.false_eq_true, if_false, hset]
        exact pushAll_snd phone _ set hub
  · intro c hc hcp hnd htn
    unfold broadcast
    cases hk : kvLookup hub.sseClients phone with
    | none =>
      rw [connsAt, hk] at hc
      simp at hc
    | some set =>
      have hset : connsAt hub phone = set := by simp [connsAt, hk]
      rw [hset] at hc hnd
      by_cases he : set.isEmpty
      · have : set = [] := by
          cases set with
          | nil => rfl
          | cons a as => simp at he
        rw [this] at hc
        simp at hc
      · simp only [he, Bool.false_eq_true, if_false]
        have habs := pushAll_removes_failed phone
          ⟨phone, (snapshotFor db phone now).balance, (snapshotFor db phone now).transactions,
            st, ref, now⟩ set hub c hc hcp hnd
          (by rw [hset]; exact List.mem_map.mpr ⟨c, hc, rfl⟩) (hset ▸ hnd) htn
        exact habs

/-- A hub with one healthy and one broken connection for `phoneA`. -/
def hubTwo : Hub :=
  { sseClients := [(phoneA, [⟨1, true⟩, ⟨2, false⟩])], timers := [2, 1] }

/-- C7 witness: on a concrete hub the broken connection (id 2) is dropped
with its timer cancelled, and the delivery list is exactly the fresh
snapshot to the healthy connection. -/
theorem claim7_broadcast_witness :
    ((broadcast dbSucceeded hubTwo phoneA (some "SUCCESS") (some "R2") 9).pushes =
      ((connsAt hubTwo phoneA).filter (fun c => c.pushOk)).map
        (fun c => (c.id, (⟨phoneA, (snapshotFor dbSucceeded phoneA 9).balance,
            (snapshotFor dbSucceeded phoneA 9).transactions,
            some "SUCCESS", some "R2", 9⟩ : SnapPayload)))) ∧
    (2 : Nat) ∉ connIds
      (connsAt (broadcast dbSucceeded hubTwo phoneA (some "SUCCESS") (some "R2") 9).hub phoneA) ∧
    (2 : Nat) ∉ (broadcast dbSucceeded hubTwo phoneA (some "SUCCESS") (some "R2") 9).hub.timers :=
  ⟨(claim7_broadcast dbSucceeded hubTwo phoneA (some "SUCCESS") (some "R2") 9).2.1,
   ((claim7_broadcast dbSucceeded hubTwo phoneA (some "SUCCESS") (some "R2") 9).2.2
      ⟨2, false⟩ (by decide) rfl (by decide) (by decide)).1,
   ((claim7_broadcast dbSucceeded hubTwo phoneA (some "SUCCESS") (some "R2") 9).2.2
      ⟨2, false⟩ (by decide) rfl (by decide) (by decide)).2⟩

/-!  ## Claim C8 -/

theorem lastFive_sorted (db : DB) (phone : String) (now : Nat) :
    List.Sorted (fun a b : TxnView => b.date ≤ a.date) (lastFive db phone now) := by
  unfold lastFive
  have hs : List.Sorted (txnGE now)
      (List.insertionSort (txnGE now)
        (db.transactions.filter
          (fun kt => kt.2.phone = some phone && kt.2.createdAt.isSome))) :=
    List.sorted_insertionSort _ _
  have ht := List.Pairwise.sublist (List.take_sublist 5 _) hs
  exact (List.pairwise_map).mpr (ht.imp (fun h => h))

theorem lastFive_len_le (db : DB) (phone : String) (now : Nat) :
    (lastFive db phone now).length ≤ 5 := by
  unfold lastFive
  rw [List.length_map]
  exact List.length_take_le 5 _

theorem lastFive_ne_nil (db : DB) (phone : String) (now : Nat) (kt : String × Txn)
    (hmem : kt ∈ db.transactions) (hph : kt.2.phone = some phone)
    (hcr : kt.2.createdAt.isSome = true) : lastFive db phone now ≠ [] := by
  unfold lastFive
  have hf : kt ∈ db.transactions.filter
      (fun kt => kt.2.phone = some phone && kt.2.createdAt.isSome) :=
    List.mem_filter.mpr ⟨hmem, by simp [hph, hcr]⟩
  have hmemS : kt ∈ List.insertionSort (txnGE now)
      (db.transactions.filter
        (fun kt => kt.2.phone = some phone && kt.2.createdAt.isSome)) :=
    ((List.perm_insertionSort (txnGE now) _).mem_iff).mpr hf
  cases hS : List.insertionSort (txnGE now)
      (db.transactions.filter
        (fun kt => kt.2.phone = some phone && kt.2.createdAt.isSome)) with
  | nil =>
    rw [hS] at hmemS
    exact absurd hmemS (List.not_mem_nil kt)
  | cons a as => simp [hS]

/-- C8: opening a stream for an identity with recorded history (some
transaction of that identity carrying a creation time) registers the
connection and immediately pushes exactly one snapshot event holding the
current balance and a transaction list that is non-empty, at most 5
long, and sorted newest-first by creation time. -/
theorem claim8_subscribe_snapshot (db : DB) (hub : Hub) (now : Nat) (rawPhone ph : String)
    (c : Conn) (kt : String × Txn)
    (hph : formatPhone rawPhone = some ph) (hpush : c.pushOk = true)
    (hmem : kt ∈ db.transactions) (hktph : kt.2.phone = some ph)
    (hktcr : kt.2.createdAt.isSome = true) :
    eventsHandler rawPhone c db hub now =
      ⟨200, (snapshotFor db ph now).db, addSseClient hub ph c,
        [(c.id, ⟨ph, (snapshotFor db ph now).balance,
          (snapshotFor db ph now).transactions, none, none, now⟩)]⟩ ∧
    (snapshotFor db ph now).transactions ≠ [] ∧
    (snapshotFor db ph now).transactions.length ≤ 5 ∧
    List.Sorted (fun a b : TxnView => b.date ≤ a.date)
      (snapshotFor db ph now).transactions := by
  refine ⟨?_, ?_, ?_, ?_⟩
  · unfold eventsHandler
    rw [hph]
    simp [hpush]
  · rw [snapshotFor_txlist]
    exact lastFive_ne_nil db ph now kt hmem hktph hktcr
  · rw [snapshotFor_txlist]
    exact lastFive_len_le db ph now
  · rw [snapshotFor_txlist]
    exact lastFive_sorted db ph now

/-- C8 witness: a concrete late subscriber to `phoneA` (whose history
holds the SUCCESS transaction `R2`) receives one immediate snapshot with
the stated shape. -/
theorem claim8_subscribe_witness :
    eventsHandler "0712345678" ⟨3, true⟩ dbSucceeded hubEmpty 9 =
      ⟨200, (snapshotFor dbSucceeded phoneA 9).db, addSseClient hubEmpty phoneA ⟨3, true⟩,
        [(3, ⟨phoneA, (snapshotFor dbSucceeded phoneA 9).balance,
          (snapshotFor dbSucceeded phoneA 9).transactions, none, none, 9⟩)]⟩ ∧
    (snapshotFor dbSucceeded phoneA 9).transactions ≠ [] ∧
    (snapshotFor dbSucceeded phoneA 9).transactions.length ≤ 5 ∧
    List.Sorted (fun a b : TxnView => b.date ≤ a.date)
      (snapshotFor dbSucceeded phoneA 9).transactions :=
  claim8_subscribe_snapshot dbSucceeded hubEmpty 9 "0712345678" phoneA ⟨3, true⟩
    ("R2", { phone := some phoneA, amount := some 100, status := some "SUCCESS",
             reference := some "R2", createdAt := some 1 })
    (by decide) rfl (by decide) (by decide) (by decide)
